import Mathlib

/-!
Verification of the liveness/shutdown state machine of the pomoflow server
(`run.py`).  The shallow embedding below translates the module-level mutable
state and the functions that touch it into pure Lean definitions:

* the globals `last_heartbeat`, `shutdown_requested`, `shutdown_request_time`,
  `shutdown_flag` (a `threading.Event`, the `terminated` latch of the spec)
  become the fields of `ServerState`; the number of times
  `threading.Thread(target=server.shutdown).start()` has been launched is
  tracked in `server_shutdown_count` so that "listener shutdown is invoked at
  most once" is expressible;
* `PomodoroHandler.do_GET` / `do_POST` become `do_GET` / `do_POST`, returning
  the response and the updated state (static-file paths, which never touch the
  liveness globals, return `none` for the response: they are delegated to the
  out-of-scope file-serving collaborator);
* one iteration of the `heartbeat_monitor` loop body becomes `monitor_check`,
  returning what the iteration decided (`MonitorAction`) and the updated state;
* `initiate_shutdown` becomes `initiate_shutdown`.

Timestamps (`time.time()`) are modelled as integers; every operation takes the
current time `now` as an argument.  The spec's vocabulary maps to the code's
as: `departure_pending` = `shutdown_requested`, `departure_requested_at` =
`shutdown_request_time`, `terminated` = `shutdown_flag`,
`record_heartbeat()` = the `GET /heartbeat` branch of `do_GET`,
`record_departure_notice()` = the `POST /shutdown` branch of `do_POST`.
-/

/-- `HEARTBEAT_TIMEOUT = 120` (run.py line 31): seconds without heartbeat
before shutdown. -/
def HEARTBEAT_TIMEOUT : Int := 120

/-- `SHUTDOWN_GRACE_PERIOD = 3` (run.py line 33): seconds to wait after a
shutdown request, allowing a reload. -/
def SHUTDOWN_GRACE_PERIOD : Int := 3

/-- The module-level mutable state of run.py that the liveness machinery
reads and writes (lines 38-43), plus a counter of listener-shutdown
invocations (the `threading.Thread(target=server.shutdown).start()` call on
line 235). -/
structure ServerState where
  last_heartbeat : Int
  shutdown_requested : Bool
  shutdown_request_time : Int
  shutdown_flag : Bool
  server_shutdown_count : Nat
deriving DecidableEq, Repr

/-- The state at server start: `last_heartbeat = time.time()` (line 39, reset
on line 378), `shutdown_requested = False` (line 42),
`shutdown_request_time = 0` (line 43), `shutdown_flag` clear (line 41). -/
def initState (t0 : Int) : ServerState :=
  { last_heartbeat := t0
    shutdown_requested := false
    shutdown_request_time := 0
    shutdown_flag := false
    server_shutdown_count := 0 }

/-- Status line, content type header and body of an HTTP response, as far as
the liveness endpoints produce them. -/
structure HttpResponse where
  status : Nat
  contentType : Option String
  body : String
deriving DecidableEq, Repr

/-- `initiate_shutdown` (run.py lines 225-235): if the shutdown flag is
already set, return without doing anything; otherwise set the flag and launch
the listener shutdown in a separate thread (counted in
`server_shutdown_count`; `server` is always set by the time the monitor
thread runs). -/
def initiate_shutdown (s : ServerState) : ServerState :=
  if s.shutdown_flag then s
  else { s with
          shutdown_flag := true
          server_shutdown_count := s.server_shutdown_count + 1 }

/-- `PomodoroHandler.do_GET` (run.py lines 99-128) restricted to its effect on
the liveness state.  `/heartbeat`: set `last_heartbeat = time.time()`, clear
`shutdown_requested`, answer `200 text/plain "ok"`.  `/shutdown`: answer
`200 text/plain "use POST"` and change nothing.  Every other path is served
by the static-file code, which never touches the liveness globals; the
response is `none` (out of scope). -/
def do_GET (path : String) (now : Int) (s : ServerState) :
    Option HttpResponse × ServerState :=
  if path = "/heartbeat" then
    (some { status := 200, contentType := some "text/plain", body := "ok" },
     { s with last_heartbeat := now, shutdown_requested := false })
  else if path = "/shutdown" then
    (some { status := 200, contentType := some "text/plain", body := "use POST" },
     s)
  else
    (none, s)

/-- `PomodoroHandler.do_POST` (run.py lines 147-163).  `/shutdown`: answer
`200 text/plain "noted"`, then set `shutdown_requested = True` and
`shutdown_request_time = time.time()` (the monitor decides later).  Any other
path: `404` with no body. -/
def do_POST (path : String) (now : Int) (s : ServerState) :
    HttpResponse × ServerState :=
  if path = "/shutdown" then
    ({ status := 200, contentType := some "text/plain", body := "noted" },
     { s with shutdown_requested := true, shutdown_request_time := now })
  else
    ({ status := 404, contentType := none, body := "" }, s)

/-- What one iteration of the `heartbeat_monitor` loop body decided. -/
inductive MonitorAction where
  /-- `shutdown_flag.is_set()` after the sleep: break out of the loop. -/
  | loopExit
  /-- No branch fired: sleep and check again. -/
  | keepWaiting
  /-- `heartbeat_elapsed < 2`: a heartbeat resumed after the departure
  notice, so it was a reload; clear `shutdown_requested` and continue. -/
  | resumedFromReload
  /-- Grace period expired with no heartbeat: `initiate_shutdown("Browser
  tab closed")` and break. -/
  | terminateTabClosed
  /-- `elapsed > HEARTBEAT_TIMEOUT`: `initiate_shutdown("No heartbeat for N
  seconds")` and break. -/
  | terminateNoHeartbeat
deriving DecidableEq, Repr

/-- The trailing "Normal heartbeat timeout check" of the loop body (run.py
lines 218-222): if `time.time() - last_heartbeat > HEARTBEAT_TIMEOUT`,
initiate shutdown with the no-heartbeat reason. -/
def heartbeat_timeout_check (now : Int) (s : ServerState) :
    MonitorAction × ServerState :=
  if now - s.last_heartbeat > HEARTBEAT_TIMEOUT then
    (MonitorAction.terminateNoHeartbeat, initiate_shutdown s)
  else
    (MonitorAction.keepWaiting, s)

/-- One iteration of the `heartbeat_monitor` loop body (run.py lines
197-222), evaluated at time `now`.  After the 1-second sleep: break if the
flag is set; if a shutdown was requested, either commit (both elapsed times
beyond the grace period), or treat a very recent heartbeat (`< 2` seconds) as
a reload and `continue` (skipping the timeout check), or fall through to the
normal heartbeat-timeout check; with no request pending, go straight to the
timeout check. -/
def monitor_check (now : Int) (s : ServerState) : MonitorAction × ServerState :=
  if s.shutdown_flag then
    (MonitorAction.loopExit, s)
  else if s.shutdown_requested then
    if now - s.shutdown_request_time > SHUTDOWN_GRACE_PERIOD ∧
        now - s.last_heartbeat > SHUTDOWN_GRACE_PERIOD then
      (MonitorAction.terminateTabClosed, initiate_shutdown s)
    else if now - s.last_heartbeat < 2 then
      (MonitorAction.resumedFromReload, { s with shutdown_requested := false })
    else
      heartbeat_timeout_check now s
  else
    heartbeat_timeout_check now s

/-- `heartbeat_monitor` first does `time.sleep(HEARTBEAT_TIMEOUT)` (run.py
line 195, the warmup), then sleeps 1 second before each check (line 198): a
monitor thread started at `t0` performs its checks at
`t0 + HEARTBEAT_TIMEOUT + 1 + k` for `k = 0, 1, 2, ...` and at no earlier
time. -/
def monitorCheckTime (t0 : Int) (k : Nat) : Int :=
  t0 + HEARTBEAT_TIMEOUT + 1 + k

/-- An externally visible event of the liveness machinery, tagged with the
time at which it happens: a `GET /heartbeat` request, a `POST /shutdown`
request (the departure notice), or one iteration of the monitor loop. -/
inductive Event where
  | heartbeat (t : Int)
  | departureNotice (t : Int)
  | monitorTick (t : Int)
deriving DecidableEq, Repr

/-- The time an event carries. -/
def eventTime : Event → Int
  | Event.heartbeat t => t
  | Event.departureNotice t => t
  | Event.monitorTick t => t

/-- The state transition an event performs: heartbeats and departure notices
go through the HTTP handlers, monitor ticks through the loop body. -/
def step (e : Event) (s : ServerState) : ServerState :=
  match e with
  | Event.heartbeat t => (do_GET "/heartbeat" t s).2
  | Event.departureNotice t => (do_POST "/shutdown" t s).2
  | Event.monitorTick t => (monitor_check t s).2

/-- Run a sequence of events from a starting state. -/
def run : List Event → ServerState → ServerState
  | [], s => s
  | e :: rest, s => run rest (step e s)

/-- `true` when the trace contains no `POST /shutdown` departure notice. -/
def noDepartureEvents : List Event → Bool
  | [] => true
  | Event.departureNotice _ :: _ => false
  | _ :: rest => noDepartureEvents rest

/-- `true` when every event of the trace happens within `HEARTBEAT_TIMEOUT`
of the most recent heartbeat (`lastHb` is the time of the last heartbeat seen
so far, initially the server start time).  This is how "heartbeat
inter-arrival gaps all below `heartbeat_timeout`" reaches the monitor: when
consecutive heartbeats are less than the timeout apart, every monitor tick
interleaved between them is within the timeout of the latest one. -/
def withinTimeoutOfLastHeartbeat : Int → List Event → Bool
  | _, [] => true
  | lastHb, e :: rest =>
    decide (eventTime e - lastHb ≤ HEARTBEAT_TIMEOUT) &&
    withinTimeoutOfLastHeartbeat
      (match e with
       | Event.heartbeat t => t
       | _ => lastHb) rest

/-- A state in which shutdown has already been initiated: the flag is set and
the listener shutdown thread has been launched once. -/
def terminatedState : ServerState :=
  { last_heartbeat := 0
    shutdown_requested := false
    shutdown_request_time := 0
    shutdown_flag := true
    server_shutdown_count := 1 }

/-! ## Helper lemmas -/

/-- No branch of the monitor loop body ever changes `last_heartbeat`. -/
theorem monitor_check_keeps_last_heartbeat (now : Int) (s : ServerState) :
    ((monitor_check now s).2).last_heartbeat = s.last_heartbeat := by
  unfold monitor_check heartbeat_timeout_check initiate_shutdown
  split_ifs <;> rfl

/-- The core induction behind the no-departure safety property: from a state
with the flag clear and no request pending, a trace without departure notices
in which every event is within `HEARTBEAT_TIMEOUT` of the latest heartbeat
keeps both the flag and the request flag clear. -/
theorem run_keeps_flag_clear (events : List Event) : ∀ (s : ServerState),
    s.shutdown_flag = false → s.shutdown_requested = false →
    noDepartureEvents events = true →
    withinTimeoutOfLastHeartbeat s.last_heartbeat events = true →
    (run events s).shutdown_flag = false ∧
      (run events s).shutdown_requested = false := by
  induction events with
  | nil =>
    intro s hf hr _ _
    exact ⟨hf, hr⟩
  | cons e rest ih =>
    intro s hf hr hnd hcov
    cases e with
    | heartbeat t =>
      simp only [noDepartureEvents] at hnd
      simp only [withinTimeoutOfLastHeartbeat, Bool.and_eq_true] at hcov
      simp only [run, step, do_GET, if_pos]
      exact ih _ hf rfl hnd hcov.2
    | departureNotice t =>
      simp [noDepartureEvents] at hnd
    | monitorTick t =>
      simp only [noDepartureEvents] at hnd
      simp only [withinTimeoutOfLastHeartbeat, Bool.and_eq_true,
        decide_eq_true_eq, eventTime] at hcov
      have hstep : step (Event.monitorTick t) s = s := by
        simp only [step, monitor_check, hf, hr, Bool.false_eq_true, if_false,
          heartbeat_timeout_check]
        rw [if_neg (by omega)]
      simp only [run, hstep]
      exact ih s hf hr hnd hcov.2

/-! ## Claim theorems -/

/-- Claim C5: shutdown is idempotent.  Once the shutdown flag is set,
`initiate_shutdown` returns the state unchanged (in particular it does not
launch another listener-shutdown thread); applying it twice equals applying
it once; the flag latches to `true`; and one call launches at most one
listener shutdown. -/
theorem initiate_shutdown_idempotent (s : ServerState) :
    initiate_shutdown (initiate_shutdown s) = initiate_shutdown s
    ∧ (s.shutdown_flag = true → initiate_shutdown s = s)
    ∧ (initiate_shutdown s).shutdown_flag = true
    ∧ (initiate_shutdown s).server_shutdown_count ≤ s.server_shutdown_count + 1 := by
  unfold initiate_shutdown
  split_ifs with h1 <;> simp_all

/-- Witness for C5: in a state whose flag is already set,
`initiate_shutdown` changes nothing. -/
theorem initiate_shutdown_idempotent_witness :
    initiate_shutdown terminatedState = terminatedState :=
  (initiate_shutdown_idempotent terminatedState).2.1 rfl

/-- Claim C6 is corrected by this counterexample: in the reachable state
where shutdown has already been initiated (the monitor fired at `t = 121`
with no heartbeat since start), a `POST /shutdown` still sets
`shutdown_requested` and `shutdown_request_time` — the handler does not guard
on the terminated latch, so the liveness state does not stay unchanged. -/
theorem departure_after_terminated_counterexample :
    (run [Event.monitorTick 121] (initState 0)).shutdown_flag = true
    ∧ (run [Event.monitorTick 121] (initState 0)).shutdown_requested = false
    ∧ ((do_POST "/shutdown" 5 (run [Event.monitorTick 121] (initState 0))).2).shutdown_requested
        = true
    ∧ ((do_POST "/shutdown" 5 (run [Event.monitorTick 121] (initState 0))).2).shutdown_request_time
        = 5 := by decide

/-- Claim C6 (amended): `record_departure_notice()` (the `POST /shutdown`
branch of `do_POST`) sets `shutdown_requested = true` and
`shutdown_request_time = now` unconditionally — also when the shutdown flag
is already set — and changes no other field. -/
theorem record_departure_notice_unconditional (now : Int) (s : ServerState) :
    ((do_POST "/shutdown" now s).2).shutdown_requested = true
    ∧ ((do_POST "/shutdown" now s).2).shutdown_request_time = now
    ∧ ((do_POST "/shutdown" now s).2).last_heartbeat = s.last_heartbeat
    ∧ ((do_POST "/shutdown" now s).2).shutdown_flag = s.shutdown_flag
    ∧ ((do_POST "/shutdown" now s).2).server_shutdown_count
        = s.server_shutdown_count := by
  simp [do_POST]

/-- Claim C7: `record_heartbeat()` (the `GET /heartbeat` branch of `do_GET`)
answers `200 text/plain "ok"`, sets `last_heartbeat = now` and clears
`shutdown_requested` in every state (the flag and the shutdown counter are
untouched); and every operation evaluated at a time not earlier than the
current `last_heartbeat` leaves `last_heartbeat` non-decreasing. -/
theorem record_heartbeat_spec (now : Int) (s : ServerState) :
    (do_GET "/heartbeat" now s).1 =
      some { status := 200, contentType := some "text/plain", body := "ok" }
    ∧ ((do_GET "/heartbeat" now s).2).last_heartbeat = now
    ∧ ((do_GET "/heartbeat" now s).2).shutdown_requested = false
    ∧ ((do_GET "/heartbeat" now s).2).shutdown_flag = s.shutdown_flag
    ∧ ((do_GET "/heartbeat" now s).2).server_shutdown_count
        = s.server_shutdown_count
    ∧ (∀ e : Event, s.last_heartbeat ≤ eventTime e →
        s.last_heartbeat ≤ (step e s).last_heartbeat) := by
  refine ⟨by simp [do_GET], by simp [do_GET], by simp [do_GET],
    by simp [do_GET], by simp [do_GET], ?_⟩
  intro e he
  cases e with
  | heartbeat t =>
    simpa [step, do_GET] using he
  | departureNotice t =>
    simp [step, do_POST]
  | monitorTick t =>
    rw [step, monitor_check_keeps_last_heartbeat]

/-- Witness for C7: the response and state updates at a concrete input, and
monotonicity of `last_heartbeat` across a concrete later event. -/
theorem record_heartbeat_spec_witness :
    (do_GET "/heartbeat" 5 (initState 0)).1 =
      some { status := 200, contentType := some "text/plain", body := "ok" }
    ∧ (initState 0).last_heartbeat
        ≤ (step (Event.heartbeat 3) (initState 0)).last_heartbeat :=
  ⟨(record_heartbeat_spec 5 (initState 0)).1,
    (record_heartbeat_spec 5 (initState 0)).2.2.2.2.2
      (Event.heartbeat 3) (by decide)⟩

/-- Claim C8: `GET /shutdown` answers `200 text/plain "use POST"` and
returns the state identically — no field of the liveness state changes and
no shutdown is triggered or recorded. -/
theorem get_shutdown_no_mutation (now : Int) (s : ServerState) :
    do_GET "/shutdown" now s =
      (some { status := 200, contentType := some "text/plain", body := "use POST" },
        s) := by
  simp [do_GET]

/-- Claim C9: `POST /shutdown` answers `200 text/plain "noted"` and does not
shut down synchronously: the shutdown flag, the listener-shutdown count and
`last_heartbeat` are unchanged (in particular, a clear flag stays clear);
only `shutdown_requested` and `shutdown_request_time` are written. -/
theorem post_shutdown_deferred (now : Int) (s : ServerState) :
    (do_POST "/shutdown" now s).1 =
      { status := 200, contentType := some "text/plain", body := "noted" }
    ∧ ((do_POST "/shutdown" now s).2).shutdown_flag = s.shutdown_flag
    ∧ ((do_POST "/shutdown" now s).2).server_shutdown_count
        = s.server_shutdown_count
    ∧ ((do_POST "/shutdown" now s).2).last_heartbeat = s.last_heartbeat
    ∧ (s.shutdown_flag = false →
        ((do_POST "/shutdown" now s).2).shutdown_flag = false)
    ∧ ((do_POST "/shutdown" now s).2).shutdown_requested = true
    ∧ ((do_POST "/shutdown" now s).2).shutdown_request_time = now := by
  simp [do_POST]

/-- Witness for C9: after a `POST /shutdown` at time 7 from the start state,
the flag is still clear. -/
theorem post_shutdown_deferred_witness :
    ((do_POST "/shutdown" 7 (initState 0)).2).shutdown_flag = false :=
  (post_shutdown_deferred 7 (initState 0)).2.2.2.2.1 rfl

/-- Claim C10: a `POST` to any path other than `/shutdown` answers `404` and
returns the state identically. -/
theorem post_other_path_404 (path : String) (now : Int) (s : ServerState)
    (h : ¬ path = "/shutdown") :
    do_POST path now s =
      ({ status := 404, contentType := none, body := "" }, s) := by
  simp [do_POST, h]

/-- Witness for C10: a `POST /heartbeat` is answered 404 with the state
unchanged. -/
theorem post_other_path_404_witness :
    do_POST "/heartbeat" 3 (initState 0) =
      ({ status := 404, contentType := none, body := "" }, initState 0) :=
  post_other_path_404 "/heartbeat" 3 (initState 0) (by decide)

/-- Claim C1: a departure notice at time `d` followed by a heartbeat at time
`h` within the resume threshold (the hard-coded `2` of run.py line 213)
leaves the system monitoring: the heartbeat handler itself clears
`shutdown_requested`, so the next monitor iteration — which in `MONITORING`
runs within the 1-second poll period of the heartbeat, hence well inside the
`HEARTBEAT_TIMEOUT` bound assumed here — decides `keepWaiting`, changes
nothing, and initiates no shutdown. -/
theorem departure_then_heartbeat_is_reload
    (s : ServerState) (d h tEval : Int)
    (hflag : s.shutdown_flag = false)
    (hresume : h - d < 2)
    (hpoll : tEval - h ≤ HEARTBEAT_TIMEOUT) :
    monitor_check tEval ((do_GET "/heartbeat" h ((do_POST "/shutdown" d s).2)).2) =
      (MonitorAction.keepWaiting,
        (do_GET "/heartbeat" h ((do_POST "/shutdown" d s).2)).2)
    ∧ ((do_GET "/heartbeat" h ((do_POST "/shutdown" d s).2)).2).shutdown_requested
        = false
    ∧ ((do_GET "/heartbeat" h ((do_POST "/shutdown" d s).2)).2).shutdown_flag
        = false
    ∧ ((do_GET "/heartbeat" h ((do_POST "/shutdown" d s).2)).2).server_shutdown_count
        = s.server_shutdown_count := by
  have hto : ¬ tEval - h > HEARTBEAT_TIMEOUT := not_lt.mpr hpoll
  simp [do_GET, do_POST, monitor_check, heartbeat_timeout_check, hflag, hto]

/-- Witness for C1: departure at 10, heartbeat at 11, evaluation at 12 from
the start state. -/
theorem departure_then_heartbeat_is_reload_witness :
    monitor_check 12 ((do_GET "/heartbeat" 11 ((do_POST "/shutdown" 10 (initState 0)).2)).2) =
      (MonitorAction.keepWaiting,
        (do_GET "/heartbeat" 11 ((do_POST "/shutdown" 10 (initState 0)).2)).2)
    ∧ ((do_GET "/heartbeat" 11 ((do_POST "/shutdown" 10 (initState 0)).2)).2).shutdown_requested
        = false
    ∧ ((do_GET "/heartbeat" 11 ((do_POST "/shutdown" 10 (initState 0)).2)).2).shutdown_flag
        = false
    ∧ ((do_GET "/heartbeat" 11 ((do_POST "/shutdown" 10 (initState 0)).2)).2).server_shutdown_count
        = (initState 0).server_shutdown_count :=
  departure_then_heartbeat_is_reload (initState 0) 10 11 12 rfl (by decide) (by decide)

/-- Claim C2 is corrected by this counterexample: for the scenario heartbeat
at 0, departure notice at 10, no further heartbeat, the monitor performs no
check before `monitorCheckTime 0 0 = 121` (it first sleeps
`HEARTBEAT_TIMEOUT = 120` seconds), so at `t = 14` no evaluation has
happened and the shutdown flag is still clear — the state is not
`TERMINATING`. -/
theorem warmup_scenario_counterexample :
    (run [Event.heartbeat 0, Event.departureNotice 10] (initState 0)).shutdown_flag
      = false
    ∧ monitorCheckTime 0 0 = 121 := by decide

/-- Claim C2 (amended): with the code's warmup of `HEARTBEAT_TIMEOUT = 120`
seconds, the scenario heartbeat at 0 / departure at 10 / no further
heartbeat is still un-terminated at `t = 14` (no evaluation has run, so no
shutdown decision is made during warmup), and the first evaluation, at
`t = 121`, transitions to `TERMINATING` via the grace-period rule. -/
theorem warmup_scenario_amended :
    (run [Event.heartbeat 0, Event.departureNotice 10] (initState 0)).shutdown_flag
      = false
    ∧ monitorCheckTime 0 0 = 121
    ∧ monitor_check (monitorCheckTime 0 0)
        (run [Event.heartbeat 0, Event.departureNotice 10] (initState 0)) =
      (MonitorAction.terminateTabClosed,
        { last_heartbeat := 0, shutdown_requested := true,
          shutdown_request_time := 10, shutdown_flag := true,
          server_shutdown_count := 1 }) := by decide

/-- Claim C3 is corrected by this counterexample: in the reachable state
with a heartbeat at 1, a quiet monitor check at 121, and a departure notice
at 121, the check at 122 fires the heartbeat-timeout transition (reason "no
heartbeat for N seconds") even though `shutdown_requested` is true — the
loop body falls through to the timeout check when the grace window has not
yet elapsed and the heartbeat is not fresh. -/
theorem timeout_with_pending_counterexample :
    (run [Event.heartbeat 1, Event.monitorTick 121, Event.departureNotice 121]
        (initState 0)).shutdown_requested = true
    ∧ (run [Event.heartbeat 1, Event.monitorTick 121, Event.departureNotice 121]
        (initState 0)).shutdown_flag = false
    ∧ (monitor_check 122
        (run [Event.heartbeat 1, Event.monitorTick 121, Event.departureNotice 121]
          (initState 0))).1 = MonitorAction.terminateNoHeartbeat
    ∧ (monitor_check 122
        (run [Event.heartbeat 1, Event.monitorTick 121, Event.departureNotice 121]
          (initState 0))).2.shutdown_flag = true := by decide

/-- Claim C3 (amended): the heartbeat-timeout transition fires exactly when
the shutdown flag is clear, `now - last_heartbeat > heartbeat_timeout`, and
either no departure is pending or the departure notice is at most
`grace_period` old (in which case the grace rule declined and the loop falls
through to the timeout check).  While a departure is pending with its notice
older than the grace period, termination can only be the grace-rule
`terminateTabClosed`. -/
theorem timeout_termination_iff (now : Int) (s : ServerState) :
    (monitor_check now s).1 = MonitorAction.terminateNoHeartbeat ↔
      (s.shutdown_flag = false
        ∧ HEARTBEAT_TIMEOUT < now - s.last_heartbeat
        ∧ (s.shutdown_requested = false
            ∨ now - s.shutdown_request_time ≤ SHUTDOWN_GRACE_PERIOD)) := by
  obtain ⟨lh, sr, srt, sf, c⟩ := s
  unfold monitor_check heartbeat_timeout_check
  cases sf <;> cases sr <;>
    split_ifs <;>
    simp_all [HEARTBEAT_TIMEOUT, SHUTDOWN_GRACE_PERIOD] <;>
    omega

/-- Claim C4: a trace with no departure notice, in which every event (in
particular every monitor check) occurs within `HEARTBEAT_TIMEOUT` of the
most recent heartbeat — the situation when heartbeat inter-arrival gaps stay
below the timeout and checks are interleaved between them — never sets the
shutdown flag: no evaluation transitions the system to `TERMINATING`. -/
theorem fresh_heartbeats_prevent_termination (t0 : Int) (events : List Event)
    (hnd : noDepartureEvents events = true)
    (hcov : withinTimeoutOfLastHeartbeat t0 events = true) :
    (run events (initState t0)).shutdown_flag = false :=
  (run_keeps_flag_clear events (initState t0) rfl rfl hnd hcov).1

/-- Witness for C4: heartbeats at 5 and 125 with monitor checks at 121 and
240 leave the flag clear. -/
theorem fresh_heartbeats_prevent_termination_witness :
    (run [Event.heartbeat 5, Event.monitorTick 121, Event.heartbeat 125,
          Event.monitorTick 240] (initState 0)).shutdown_flag = false :=
  fresh_heartbeats_prevent_termination 0
    [Event.heartbeat 5, Event.monitorTick 121, Event.heartbeat 125,
     Event.monitorTick 240] (by decide) (by decide)
